import Mathlib

/-!
Verification of the scenario core of `pycstbox.homeautomation.core` (Python 2).

The development shallowly embeds the module's three classes:
  * `BasicAction`  — the namedtuple with derived labels,
  * `Scenario`     — an ordered action sequence with (de)serialization,
  * `ScenariosManager` — the id-keyed directory with load/save.

Python exceptions are embedded as `PyErr` values; fallible operations
return `Except PyErr _` or a `(state, Option PyErr)` pair when the
post-failure state matters.  JSON documents and dynamically typed action
`data` are embedded as the `JVal` type (integral numbers only; string
escaping inside `repr` is not modelled — no property here depends on it).

Error taxonomy of the spec vs. the Python exceptions of the source:
  InvalidArgument   = ValueError        (`PyErr.valueError`)
  TypeMismatch / TypeCoercionError = TypeError (`PyErr.typeError`)
  NotFound          = KeyError          (`PyErr.keyError`)
  ParseError        = json decode error (`PyErr.jsonError`)
-/

/-- Python exceptions raised by the module, by exception class. -/
inductive PyErr where
  | valueError (msg : String)
  | typeError (msg : String)
  | keyError (key : String)
  | jsonError (msg : String)
deriving Repr, DecidableEq

/-- Dynamically typed Python/JSON values: `None`, integral numbers, strings,
booleans, lists and dicts (dicts as association lists in document order). -/
inductive JVal where
  | null
  | int (n : Int)
  | str (s : String)
  | bool (b : Bool)
  | arr (xs : List JVal)
  | obj (kvs : List (String × JVal))
deriving Repr

namespace JVal

/-- Python truthiness (`bool(v)`): `None`, `0`, `""`, `False` and empty
containers are falsy. -/
def truthy : JVal → Bool
  | .null => false
  | .int n => n ≠ 0
  | .str s => s ≠ ""
  | .bool b => b
  | .arr xs => !xs.isEmpty
  | .obj kvs => !kvs.isEmpty

end JVal

mutual

/-- Decidable equality on embedded values (hand-written: automatic deriving
does not support this nested inductive). -/
def jvalDecEq : (a b : JVal) → Decidable (a = b)
  | .null, .null => .isTrue rfl
  | .null, .int _ => .isFalse (fun h => JVal.noConfusion h)
  | .null, .str _ => .isFalse (fun h => JVal.noConfusion h)
  | .null, .bool _ => .isFalse (fun h => JVal.noConfusion h)
  | .null, .arr _ => .isFalse (fun h => JVal.noConfusion h)
  | .null, .obj _ => .isFalse (fun h => JVal.noConfusion h)
  | .int _, .null => .isFalse (fun h => JVal.noConfusion h)
  | .int n, .int m =>
    if h : n = m then .isTrue (congrArg JVal.int h)
    else .isFalse (fun he => h (by injection he))
  | .int _, .str _ => .isFalse (fun h => JVal.noConfusion h)
  | .int _, .bool _ => .isFalse (fun h => JVal.noConfusion h)
  | .int _, .arr _ => .isFalse (fun h => JVal.noConfusion h)
  | .int _, .obj _ => .isFalse (fun h => JVal.noConfusion h)
  | .str _, .null => .isFalse (fun h => JVal.noConfusion h)
  | .str _, .int _ => .isFalse (fun h => JVal.noConfusion h)
  | .str s, .str t =>
    if h : s = t then .isTrue (congrArg JVal.str h)
    else .isFalse (fun he => h (by injection he))
  | .str _, .bool _ => .isFalse (fun h => JVal.noConfusion h)
  | .str _, .arr _ => .isFalse (fun h => JVal.noConfusion h)
  | .str _, .obj _ => .isFalse (fun h => JVal.noConfusion h)
  | .bool _, .null => .isFalse (fun h => JVal.noConfusion h)
  | .bool _, .int _ => .isFalse (fun h => JVal.noConfusion h)
  | .bool _, .str _ => .isFalse (fun h => JVal.noConfusion h)
  | .bool x, .bool y =>
    if h : x = y then .isTrue (congrArg JVal.bool h)
    else .isFalse (fun he => h (by injection he))
  | .bool _, .arr _ => .isFalse (fun h => JVal.noConfusion h)
  | .bool _, .obj _ => .isFalse (fun h => JVal.noConfusion h)
  | .arr _, .null => .isFalse (fun h => JVal.noConfusion h)
  | .arr _, .int _ => .isFalse (fun h => JVal.noConfusion h)
  | .arr _, .str _ => .isFalse (fun h => JVal.noConfusion h)
  | .arr _, .bool _ => .isFalse (fun h => JVal.noConfusion h)
  | .arr xs, .arr ys =>
    match jvalDecEqList xs ys with
    | .isTrue h => .isTrue (congrArg JVal.arr h)
    | .isFalse h => .isFalse (fun he => h (by injection he))
  | .arr _, .obj _ => .isFalse (fun h => JVal.noConfusion h)
  | .obj _, .null => .isFalse (fun h => JVal.noConfusion h)
  | .obj _, .int _ => .isFalse (fun h => JVal.noConfusion h)
  | .obj _, .str _ => .isFalse (fun h => JVal.noConfusion h)
  | .obj _, .bool _ => .isFalse (fun h => JVal.noConfusion h)
  | .obj _, .arr _ => .isFalse (fun h => JVal.noConfusion h)
  | .obj xs, .obj ys =>
    match jvalDecEqObj xs ys with
    | .isTrue h => .isTrue (congrArg JVal.obj h)
    | .isFalse h => .isFalse (fun he => h (by injection he))

/-- Decidable equality on lists of embedded values. -/
def jvalDecEqList : (xs ys : List JVal) → Decidable (xs = ys)
  | [], [] => .isTrue rfl
  | [], _ :: _ => .isFalse (fun h => List.noConfusion h)
  | _ :: _, [] => .isFalse (fun h => List.noConfusion h)
  | x :: xs, y :: ys =>
    match jvalDecEq x y with
    | .isFalse h1 => .isFalse (fun he => by injection he with hh ht; exact h1 hh)
    | .isTrue h1 =>
      match jvalDecEqList xs ys with
      | .isTrue h2 => .isTrue (by rw [h1, h2])
      | .isFalse h2 => .isFalse (fun he => by injection he with hh ht; exact h2 ht)

/-- Decidable equality on dict entry lists. -/
def jvalDecEqObj : (xs ys : List (String × JVal)) → Decidable (xs = ys)
  | [], [] => .isTrue rfl
  | [], _ :: _ => .isFalse (fun h => List.noConfusion h)
  | _ :: _, [] => .isFalse (fun h => List.noConfusion h)
  | (k1, v1) :: xs, (k2, v2) :: ys =>
    if hk : k1 = k2 then
      match jvalDecEq v1 v2 with
      | .isFalse h1 =>
        .isFalse (fun he => by injection he with hh ht; exact h1 (congrArg Prod.snd hh))
      | .isTrue h1 =>
        match jvalDecEqObj xs ys with
        | .isTrue h2 => .isTrue (by rw [hk, h1, h2])
        | .isFalse h2 => .isFalse (fun he => by injection he with hh ht; exact h2 ht)
    else .isFalse (fun he => by injection he with hh ht; exact hk (congrArg Prod.fst hh))

end

instance : DecidableEq JVal := jvalDecEq

/-- Decidable equality of fallible results, for concrete evaluation. -/
instance {ε α : Type} [DecidableEq ε] [DecidableEq α] : DecidableEq (Except ε α) :=
  fun x y =>
  match x, y with
  | .ok a, .ok b =>
    if h : a = b then .isTrue (congrArg Except.ok h)
    else .isFalse (fun he => h (by injection he))
  | .error a, .error b =>
    if h : a = b then .isTrue (congrArg Except.error h)
    else .isFalse (fun he => h (by injection he))
  | .ok _, .error _ => .isFalse (fun h => Except.noConfusion h)
  | .error _, .ok _ => .isFalse (fun h => Except.noConfusion h)

mutual

/-- Python 2 `repr(v)` for embedded values (string escaping not modelled). -/
def pyRepr : JVal → String
  | .null => "None"
  | .int n => toString n
  | .str s => "\x27" ++ s ++ "\x27"
  | .bool b => if b then "True" else "False"
  | .arr xs => "[" ++ String.intercalate ", " (pyReprList xs) ++ "]"
  | .obj kvs => "\x7b" ++ String.intercalate ", " (pyReprObj kvs) ++ "\x7d"

/-- `repr` of every element of a list. -/
def pyReprList : List JVal → List String
  | [] => []
  | v :: rest => pyRepr v :: pyReprList rest

/-- `repr` of every key/value entry of a dict. -/
def pyReprObj : List (String × JVal) → List String
  | [] => []
  | (k, v) :: rest => ("\x27" ++ k ++ "\x27: " ++ pyRepr v) :: pyReprObj rest

end

/-- Python 2 `str(v)`: identical to `repr` except on strings, which are
rendered verbatim. -/
def pyStr : JVal → String
  | .str s => s
  | v => pyRepr v

/-- Leading-whitespace removal over characters. -/
def dropSpaces : List Char → List Char
  | [] => []
  | c :: cs =>
    if c = ' ' ∨ c = '\t' ∨ c = '\n' ∨ c = '\r' then dropSpaces cs else c :: cs

/-- Whitespace removal at both ends (what `int()` tolerates). -/
def trimChars (l : List Char) : List Char :=
  (dropSpaces ((dropSpaces l).reverse)).reverse

/-- Decimal digit accumulation; `none` at the first non-digit. -/
def parseDigits : List Char → Nat → Option Nat
  | [], acc => some acc
  | c :: cs, acc =>
    if c.isDigit then parseDigits cs (acc * 10 + (c.toNat - 48)) else none

/-- `int(s)` on a string: optional surrounding whitespace, optional sign,
one or more decimal digits; `none` when the literal is invalid. -/
def parseIntStr (s : String) : Option Int :=
  match trimChars s.data with
  | [] => none
  | '-' :: ds =>
    if ds.isEmpty then none
    else (parseDigits ds 0).map (fun n => -(n : Int))
  | '+' :: ds =>
    if ds.isEmpty then none
    else (parseDigits ds 0).map (fun n => (n : Int))
  | ds => (parseDigits ds 0).map (fun n => (n : Int))

/-- Python 2 `int(v)`: `TypeError` on `None`/lists/dicts, `ValueError` on a
non-numeric string. -/
def pyInt : JVal → Except PyErr Int
  | .int n => .ok n
  | .bool b => .ok (if b then 1 else 0)
  | .str s =>
    match parseIntStr s with
    | some n => .ok n
    | none => .error (.valueError "invalid literal for int() with base 10")
  | .null => .error (.typeError "int() argument must be a string or a number, not NoneType")
  | .arr _ => .error (.typeError "int() argument must be a string or a number, not list")
  | .obj _ => .error (.typeError "int() argument must be a string or a number, not dict")

namespace JVal

/-- Python subscript `d[k]` with a string key: `KeyError` on a dict miss,
`TypeError` when the value is not a dict (for a list: string indices are
rejected). -/
def getItem (d : JVal) (k : String) : Except PyErr JVal :=
  match d with
  | .obj kvs =>
    match kvs.lookup k with
    | some v => .ok v
    | none => .error (.keyError k)
  | .arr _ => .error (.typeError "list indices must be integers, not str")
  | _ => .error (.typeError "object is unsubscriptable")

/-- Python `d.get(k, None)`: only dicts expose `get` (embedding of the
`AttributeError` on other receivers as a `typeError`). -/
def getDefault (d : JVal) (k : String) : Except PyErr JVal :=
  match d with
  | .obj kvs => .ok ((kvs.lookup k).getD .null)
  | _ => .error (.typeError "object has no attribute get")

end JVal

/-- Embedding scope: the string-typed fields of the model (`verb`, `target`,
scenario `label`) must be JSON strings in a document. -/
def asStr : JVal → Except PyErr String
  | .str s => .ok s
  | _ => .error (.typeError "expected a string value")

/-- Embedding of an optional-label document field: absent/`null` maps to no
label, a JSON string to that label. -/
def asOptStr : JVal → Except PyErr (Option String)
  | .null => .ok none
  | .str s => .ok (some s)
  | _ => .error (.typeError "expected a string label")

/-! ## `BasicAction` (source lines 128-173)

`class BasicAction(namedtuple('BasicAction', 'verb target data label'))`:
an immutable record whose four fields are fixed by `__new__`. -/

structure BasicAction where
  verb : String
  target : String
  data : JVal
  label : String
deriving Repr, DecidableEq

/-- One control event sent to the event manager: `(verb, target, str(data))`
exactly as passed to `emitEvent`. -/
abbrev Call := String × String × String

/-- The event-manager boundary consumed by `execute`: emitting an event
either succeeds or raises some exception. -/
abbrev EmitFn := Call → Option PyErr

namespace BasicAction

/-- `BasicAction._interpret_param` (lines 152-159): note the `else` branch
returns the parameter itself, NOT its string form. -/
def interpretParam (verb : String) (parameter : JVal) : Except PyErr JVal :=
  if verb = "switch" then
    .ok (.str (if parameter.truthy then "on" else "off"))
  else if verb = "dim" then
    match pyInt parameter with
    | .ok n => .ok (.str (toString n ++ "%"))
    | .error e => .error e
  else
    .ok parameter

/-- The label derivation of `__new__` (line 145):
`verb + ' ' + target + ' ' + cls._interpret_param(verb, data)`.
In Python 2 the final concatenation raises `TypeError` unless
`_interpret_param` produced a string. -/
def deriveLabel (verb target : String) (data : JVal) : Except PyErr String :=
  match interpretParam verb data with
  | .error e => .error e
  | .ok (.str s) => .ok (verb ++ " " ++ target ++ " " ++ s)
  | .ok _ => .error (.typeError "cannot concatenate str and non-str objects")

/-- `BasicAction.__new__` (lines 135-146).  `label` is `None` or a string;
`not label` is true for `None` and for the empty string, in which case the
label is derived. -/
def new (verb target : String) (data : JVal) (label : Option String) :
    Except PyErr BasicAction :=
  if verb = "" ∨ target = "" then
    .error (.valueError "parameters verb and target are mandatory")
  else if label.getD "" = "" then
    match deriveLabel verb target data with
    | .error e => .error e
    | .ok l => .ok ⟨verb, target, data, l⟩
  else
    .ok ⟨verb, target, data, label.getD ""⟩

/-- `namedtuple._asdict()`: all four fields, in field order. -/
def asDict (a : BasicAction) : JVal :=
  .obj [("verb", .str a.verb), ("target", .str a.target),
        ("data", a.data), ("label", .str a.label)]

/-- `BasicAction.from_dict` (lines 148-150):
`cls(d['verb'], d['target'], d.get('data', None), d.get('label', None))`. -/
def from_dict (d : JVal) : Except PyErr BasicAction := do
  let v ← d.getItem "verb"
  let vs ← asStr v
  let t ← d.getItem "target"
  let ts ← asStr t
  let dt ← d.getDefault "data"
  let lb ← d.getDefault "label"
  let lbs ← asOptStr lb
  new vs ts dt lbs

/-- The event `execute` emits for an action. -/
def callOf (a : BasicAction) : Call := (a.verb, a.target, pyStr a.data)

/-- `BasicAction.execute` (lines 161-168):
`event_manager.emitEvent(self.verb, self.target, str(self.data))`.
Returns the calls made on the sink (always exactly this one) and the
outcome: a sink failure propagates as-is. -/
def execute (a : BasicAction) (emit : EmitFn) : List Call × Except PyErr Unit :=
  ([callOf a],
   match emit (callOf a) with
   | none => .ok ()
   | some e => .error e)

end BasicAction

/-! ## `Scenario` (source lines 33-125) -/

structure Scenario where
  label : String
  actions : List BasicAction
deriving Repr, DecidableEq

namespace Scenario

/-- `Scenario.__init__` (lines 41-49): `self._actions = actions[:] if actions
else []`.  At value level the copy is the list itself; the object-identity
consequences of `[:]` are modelled separately in the heap embedding below. -/
def init (label : String) (actions : Option (List BasicAction)) : Scenario :=
  ⟨label, match actions with | some l => l | none => []⟩

/-- `Scenario.add_action` (lines 62-70).  `action` is `None` or a
`BasicAction` (a 4-tuple, hence always truthy); the `isinstance` check never
fires in this typed embedding. -/
def add_action (s : Scenario) (action : Option BasicAction) :
    Scenario × Option PyErr :=
  match action with
  | none => (s, some (.valueError "parameter is mandatory"))
  | some a => ({ s with actions := s.actions ++ [a] }, none)

/-- The FIRST `Scenario.update` definition (bulk replace, lines 72-79):
`self._actions = actions[:]` after rejecting an empty/None list.  In the
source this `def` is SHADOWED by the second definition of the same name
(lines 105-111), so it is dead code; it is embedded here under a distinct
name to state what it would do. -/
def update_bulk (s : Scenario) (actions : List BasicAction) :
    Scenario × Option PyErr :=
  if actions.isEmpty then
    (s, some (.valueError "parameter actions is mandatory"))
  else
    ({ s with actions := actions }, none)

/-- `Scenario.clear` (lines 81-84). -/
def clear (s : Scenario) : Scenario := { s with actions := [] }

/-- The loop of `Scenario.execute` (lines 95-97): run each action in stored
order, accumulating the sink calls; a raise stops the loop at once. -/
def execList (emit : EmitFn) : List BasicAction → List Call × Option PyErr
  | [] => ([], none)
  | a :: rest =>
    match BasicAction.execute a emit with
    | (cs, .error e) => (cs, some e)
    | (cs, .ok _) =>
      let (tr, r) := execList emit rest
      (cs ++ tr, r)

/-- `Scenario.execute` (lines 86-97): `None` event manager is rejected with
`ValueError`; otherwise the recorded actions run strictly in order. -/
def execute (s : Scenario) (event_manager : Option EmitFn) :
    List Call × Except PyErr Unit :=
  match event_manager with
  | none => ([], .error (.valueError "parameter event_manager is mandatory"))
  | some emit =>
    match execList emit s.actions with
    | (tr, none) => (tr, .ok ())
    | (tr, some e) => (tr, .error e)

/-- `Scenario.as_dict` (lines 99-103). -/
def as_dict (s : Scenario) : JVal :=
  .obj [("label", .str s.label),
        ("actions", .arr (s.actions.map BasicAction.asDict))]

/-- The list comprehension of `Scenario.from_dict` (lines 117-124): one
`BasicAction(action['verb'], action['target'], action.get('data', None),
action.get('label', None))` per entry, left to right, first failure raising.
The per-action construction is exactly the body of `BasicAction.from_dict`. -/
def fromDictList : List JVal → Except PyErr (List BasicAction)
  | [] => .ok []
  | d :: rest => do
    let a ← BasicAction.from_dict d
    let as ← fromDictList rest
    pure (a :: as)

/-- `Scenario.from_dict` (lines 113-125).  A non-list `actions` value
eventually raises `TypeError` in Python (bad iteration or bad subscripts);
the embedding raises it at the loop head. -/
def from_dict (d : JVal) : Except PyErr Scenario := do
  let lv ← d.getItem "label"
  let label ← asStr lv
  let av ← d.getItem "actions"
  let items ← match av with
    | .arr xs => Except.ok xs
    | _ => Except.error (PyErr.typeError "actions value is not a list")
  let actions ← fromDictList items
  pure (init label (some actions))

/-- Arguments callers may pass to the live `Scenario.update`: a Python list
of actions (what the first, shadowed definition expected) or a parsed
definition document (what the second definition expects). -/
inductive UpdateArg where
  | actionList (l : List BasicAction)
  | definition (d : JVal)

/-- `Scenario.from_dict` applied to an update argument: on a Python list the
very first subscript `d['label']` raises `TypeError`, exactly as on a
`JVal.arr`. -/
def from_dict_arg : UpdateArg → Except PyErr Scenario
  | .actionList _ => .error (.typeError "list indices must be integers, not str")
  | .definition d => from_dict d

/-- The SECOND `Scenario.update` definition (lines 105-111) — the LIVE one,
since in a Python class body a later `def` of the same name replaces the
earlier one.  It builds a scenario from the definition dict and installs its
label and actions; on failure the scenario is untouched. -/
def update (s : Scenario) (d : UpdateArg) : Scenario × Option PyErr :=
  match from_dict_arg d with
  | .ok ns => ({ label := ns.label, actions := ns.actions }, none)
  | .error e => (s, some e)

end Scenario

/-! ## Heap embedding of `Scenario` list identity (for the aliasing claims)

Python lists are mutable objects; `actions[:]` in `__init__` allocates a new
list object, while the `actions` property (lines 55-60) returns the internal
list object itself, `return self._actions`, with no copy.  To make object
identity observable, a tiny heap maps references (naturals) to list
contents; a scenario object holds a reference to its internal list. -/

/-- A heap of Python list objects holding actions. -/
structure Heap where
  cells : List (List BasicAction)
deriving Repr, DecidableEq

namespace Heap

/-- Allocate a fresh list object with the given contents. -/
def alloc (h : Heap) (v : List BasicAction) : Heap × Nat :=
  (⟨h.cells ++ [v]⟩, h.cells.length)

/-- Contents of the list object behind a reference. -/
def get (h : Heap) (r : Nat) : List BasicAction :=
  h.cells.getD r []

/-- In-place mutation of the list object behind a reference (what Python
code holding the reference can do, e.g. `lst[0] = x`, `lst.append`...). -/
def set (h : Heap) (r : Nat) (v : List BasicAction) : Heap :=
  ⟨h.cells.set r v⟩

end Heap

/-- A scenario object: its label and the reference to its internal
`_actions` list object. -/
structure ScenarioObj where
  label : String
  actionsRef : Nat
deriving Repr, DecidableEq

namespace ScenarioObj

/-- `Scenario.__init__` at heap level: `self._actions = actions[:] if
actions else []` allocates a NEW list object either way — a copy of the
caller's list (`[:]`), or a fresh empty list when the argument is `None` or
empty (both falsy, and copying an empty list yields an empty list). -/
def init (h : Heap) (label : String) (actions : Option Nat) :
    Heap × ScenarioObj :=
  let contents := match actions with
    | some r => h.get r
    | none => []
  let (h2, r2) := h.alloc contents
  (h2, ⟨label, r2⟩)

/-- The `actions` property (lines 55-60): `return self._actions` — the
internal list object itself, not a copy. -/
def actionsAccessor (s : ScenarioObj) : Nat := s.actionsRef

/-- The scenario's recorded action sequence: the contents of its internal
list object. -/
def recorded (h : Heap) (s : ScenarioObj) : List BasicAction :=
  h.get s.actionsRef

end ScenarioObj

/-! ## `ScenariosManager` (source lines 176-274) -/

/-- The manager: `self._scenarios`, a dict from scenario id to `Scenario`,
embedded as an association list with unique keys.  (Python dict insertion
order is never observable through the module: enumeration sorts.) -/
structure ScenariosManager where
  scenarios : List (String × Scenario)
deriving Repr, DecidableEq

/-- `DEFAULT_STORAGE_PATH` (line 181). -/
def DEFAULT_STORAGE_PATH : String := "/etc/cstbox/home-automation-scenarios.cfg"

/-- What the filesystem holds at a path that `os.path.isfile` accepts:
either a document that `json.load` parses to a value, or content on which
`json.load` raises. -/
inductive FileContent where
  | doc (j : JVal)
  | malformed (msg : String)
deriving Repr

/-- A filesystem: `none` at paths that are missing or not regular files. -/
abbrev FileSys := String → Option FileContent

/-- The comparison `sorted` uses on `(id, scenario)` pairs: Python tuple
comparison, decided by the (unique) ids.  Python 2 compares strings
lexicographically by character, which is what `String.le` does. -/
def pairLe (p q : String × Scenario) : Prop := p.1 ≤ q.1

/-- Decidability of `pairLe` through `toList`, so that concrete sorts reduce
under kernel evaluation. -/
instance pairLeDec : DecidableRel pairLe := fun p q =>
  decidable_of_iff (p.1.toList ≤ q.1.toList) String.le_iff_toList_le.symm

instance pairLeTotal : IsTotal (String × Scenario) pairLe :=
  ⟨fun p q => le_total p.1 q.1⟩

instance pairLeTrans : IsTrans (String × Scenario) pairLe :=
  ⟨fun _ _ _ hab hbc => le_trans hab hbc⟩

namespace ScenariosManager

/-- Dict assignment `self._scenarios[k] = v`: replace the binding if the key
is present, append otherwise (key uniqueness is preserved). -/
def insertScenario (l : List (String × Scenario)) (k : String) (v : Scenario) :
    List (String × Scenario) :=
  if l.any (fun p => p.1 = k) then
    l.map (fun p => if p.1 = k then (k, v) else p)
  else
    l ++ [(k, v)]

/-- The `scenarios` property (lines 188-198): `sorted(self._scenarios.items())`.
Tuple comparison is decided by the first components since ids are unique;
`sorted` builds a fresh list. -/
def scenariosSorted (mgr : ScenariosManager) : List (String × Scenario) :=
  List.insertionSort pairLe mgr.scenarios

/-- `__contains__` (lines 200-201). -/
def contains (mgr : ScenariosManager) (name : String) : Bool :=
  mgr.scenarios.any (fun p => p.1 = name)

/-- `get_scenario` (lines 203-210): dict lookup, `KeyError` on a miss. -/
def get_scenario (mgr : ScenariosManager) (id_ : String) :
    Except PyErr Scenario :=
  match mgr.scenarios.lookup id_ with
  | some s => .ok s
  | none => .error (.keyError id_)

/-- `add_scenario` (lines 212-222).  A `Scenario` object is always truthy
and the `isinstance` check never fires in this typed embedding, so only the
empty-id rejection remains observable. -/
def add_scenario (mgr : ScenariosManager) (id_ : String) (scenario : Scenario) :
    ScenariosManager × Option PyErr :=
  if id_ = "" then
    (mgr, some (.valueError "parameter id_ and scenario are mandatory"))
  else
    (⟨insertScenario mgr.scenarios id_ scenario⟩, none)

/-- `remove_scenario` (lines 224-231): empty id rejected with `ValueError`;
`del self._scenarios[id_]` raises `KeyError` when absent. -/
def remove_scenario (mgr : ScenariosManager) (id_ : String) :
    ScenariosManager × Option PyErr :=
  if id_ = "" then
    (mgr, some (.valueError "parameter id_ is mandatory"))
  else if mgr.scenarios.any (fun p => p.1 = id_) then
    (⟨mgr.scenarios.filter (fun p => p.1 ≠ id_)⟩, none)
  else
    (mgr, some (.keyError id_))

/-- Path resolution of `load_scenarios`/`save_scenarios`: `if not path:
path = self.DEFAULT_STORAGE_PATH` (both `None` and `""` are falsy). -/
def resolvePath : Option String → String
  | none => DEFAULT_STORAGE_PATH
  | some p => if p = "" then DEFAULT_STORAGE_PATH else p

/-- The load loop (lines 258-259), starting from the just-cleared dict:
one `Scenario.from_dict` per top-level entry; a failure mid-loop leaves the
entries built so far. -/
def loadLoop (acc : List (String × Scenario)) :
    List (String × JVal) → List (String × Scenario) × Option PyErr
  | [] => (acc, none)
  | (k, v) :: rest =>
    match Scenario.from_dict v with
    | .ok s => loadLoop (insertScenario acc k s) rest
    | .error e => (acc, some e)

/-- `load_scenarios` (lines 233-259).  Order of operations in the source:
(1) resolve the path, (2) `os.path.isfile` check — `ValueError` with the map
untouched, (3) `self._scenarios = \x7b\x7d` — the map is CLEARED, (4)
`json.load` — a malformed document raises here, after the clear, (5) the
per-entry loop (`iteritems` of a non-dict raises `AttributeError`, embedded
as a `typeError`, likewise after the clear). -/
def load_scenarios (fs : FileSys) (mgr : ScenariosManager)
    (path : Option String) : ScenariosManager × Option PyErr :=
  let p := resolvePath path
  match fs p with
  | none =>
    (mgr, some (.valueError ("path " ++ p ++ " not found or is not a file")))
  | some (.malformed msg) => (⟨[]⟩, some (.jsonError msg))
  | some (.doc j) =>
    match j with
    | .obj kvs =>
      match loadLoop [] kvs with
      | (l, r) => (⟨l⟩, r)
    | _ => (⟨[]⟩, some (.typeError "object has no attribute iteritems"))

/-- `save_scenarios` (lines 261-274): the document written out — one
top-level entry per scenario via `as_dict` (dict enumeration order is not
specified in Python 2; the internal order is used). -/
def save_scenarios (mgr : ScenariosManager) : JVal :=
  .obj (mgr.scenarios.map (fun p => (p.1, p.2.as_dict)))

end ScenariosManager

/-! ## Concrete fixtures used by witnesses and counterexamples -/

/-- `BasicAction("switch", "kitchen", 0)` as constructed (label derived). -/
def actKitchen : BasicAction := ⟨"switch", "kitchen", .int 0, "switch kitchen off"⟩

/-- `BasicAction("switch", "living", 0)` as constructed (label derived). -/
def actLiving : BasicAction := ⟨"switch", "living", .int 0, "switch living off"⟩

/-- `BasicAction("dim", "bedroom", 50)` as constructed (label derived). -/
def actBedroom : BasicAction := ⟨"dim", "bedroom", .int 50, "dim bedroom 50%"⟩

/-- A three-action scenario, as in the source's own tests. -/
def scFix : Scenario := ⟨"scenario 1", [actKitchen, actLiving, actBedroom]⟩

/-- An event sink that raises on the event targeting `living` (the second
action of `scFix`) and accepts everything else. -/
def emitFailLiving : EmitFn := fun c =>
  if c.2.1 = "living" then some (.typeError "sink failure") else none

/-- A filesystem on which every path resolves to a file whose content is not
valid JSON. -/
def fsMalformed : FileSys := fun _ => some (.malformed "bad document")

/-- A filesystem with no regular file at any path. -/
def fsMissing : FileSys := fun _ => none

/-- A one-scenario store. -/
def mgrFix : ScenariosManager := ⟨[("s01", scFix)]⟩

/-- A store holding exactly the ids `s02`, `s00`, `s01` (in that internal
order). -/
def mgrOrder : ScenariosManager := ⟨[("s02", scFix), ("s00", scFix), ("s01", scFix)]⟩

/-! ## Well-formedness of constructed values -/

/-- The fields every successfully constructed `BasicAction` has: non-empty
verb and target (checked by `__new__`) and a non-empty label (supplied
truthy, or derived). -/
def BasicAction.wf (a : BasicAction) : Prop :=
  a.verb ≠ "" ∧ a.target ≠ "" ∧ a.label ≠ ""

/-- A scenario is well-formed when all its actions are. -/
def Scenario.wf (s : Scenario) : Prop := ∀ a ∈ s.actions, a.wf

instance (a : BasicAction) : Decidable a.wf := by
  unfold BasicAction.wf; infer_instance

instance (s : Scenario) : Decidable s.wf := by
  unfold Scenario.wf; exact List.decidableBAll _ _

/-! ## Helper lemmas -/

/-- Deserializing the serialized form of a well-formed action reproduces it
exactly; the supplied (non-empty) label is kept, so no re-derivation
happens. -/
theorem BasicAction.from_dict_asDict (a : BasicAction)
    (hv : a.verb ≠ "") (ht : a.target ≠ "") (hl : a.label ≠ "") :
    BasicAction.from_dict a.asDict = .ok a := by
  have h1 : BasicAction.from_dict a.asDict
      = BasicAction.new a.verb a.target a.data (some a.label) := rfl
  rw [h1]
  unfold BasicAction.new
  rw [if_neg (by simp [hv, ht])]
  simp only [Option.getD_some]
  rw [if_neg hl]

/-- Deserializing a serialized well-formed action list reproduces it. -/
theorem Scenario.fromDictList_map_asDict (l : List BasicAction)
    (h : ∀ a ∈ l, a.wf) :
    Scenario.fromDictList (l.map BasicAction.asDict) = .ok l := by
  induction l with
  | nil => rfl
  | cons a rest ih =>
    obtain ⟨hv, ht, hl⟩ := h a (by simp)
    have hrest := ih (fun b hb => h b (by simp [hb]))
    simp only [List.map_cons, Scenario.fromDictList]
    rw [BasicAction.from_dict_asDict a hv ht hl, hrest]
    rfl

/-- When the sink accepts every recorded event, the execution loop emits one
event per action, in stored order. -/
theorem Scenario.execList_all_ok (emit : EmitFn) (l : List BasicAction)
    (h : ∀ a ∈ l, emit (BasicAction.callOf a) = none) :
    Scenario.execList emit l = (l.map BasicAction.callOf, none) := by
  induction l with
  | nil => rfl
  | cons a rest ih =>
    have ha := h a (by simp)
    have hrest := ih (fun b hb => h b (by simp [hb]))
    simp [Scenario.execList, BasicAction.execute, ha, hrest]

/-- When the sink accepts the events of a leading segment and raises on the
next action, the loop emits exactly the leading events plus the failing one
and stops: nothing of the tail is emitted. -/
theorem Scenario.execList_stops (emit : EmitFn) (l1 : List BasicAction)
    (a : BasicAction) (l2 : List BasicAction) (e : PyErr)
    (h1 : ∀ b ∈ l1, emit (BasicAction.callOf b) = none)
    (ha : emit (BasicAction.callOf a) = some e) :
    Scenario.execList emit (l1 ++ a :: l2)
      = (l1.map BasicAction.callOf ++ [BasicAction.callOf a], some e) := by
  induction l1 with
  | nil => simp [Scenario.execList, BasicAction.execute, ha]
  | cons b rest ih =>
    have hb := h1 b (by simp)
    have hrest := ih (fun c hc => h1 c (by simp [hc]))
    simp [Scenario.execList, BasicAction.execute, hb, hrest]

/-- A key reported present by `any` occurs among the mapped-out keys. -/
theorem key_mem_of_any {l : List (String × Scenario)} {k : String}
    (h : l.any (fun p => p.1 = k) = true) : k ∈ l.map Prod.fst := by
  rw [List.any_eq_true] at h
  obtain ⟨x, hx, hpx⟩ := h
  have hk : x.1 = k := of_decide_eq_true hpx
  exact hk ▸ List.mem_map_of_mem Prod.fst hx

/-- After filtering a key out, it no longer occurs among the keys. -/
theorem key_not_mem_filter (l : List (String × Scenario)) (k : String) :
    k ∉ (l.filter (fun p => p.1 ≠ k)).map Prod.fst := by
  intro hmem
  rw [List.mem_map] at hmem
  obtain ⟨x, hx, hk⟩ := hmem
  rw [List.mem_filter] at hx
  exact (of_decide_eq_true hx.2) hk

/-- A lookup miss means `any` cannot find the key either. -/
theorem any_false_of_lookup_none {l : List (String × Scenario)} {k : String}
    (h : l.lookup k = none) : l.any (fun p => p.1 = k) = false := by
  induction l with
  | nil => rfl
  | cons p rest ih =>
    obtain ⟨k1, v1⟩ := p
    by_cases hk : k1 = k
    · subst hk
      simp [List.lookup] at h
    · rw [List.lookup] at h
      have hbeq : (k == k1) = false := by simp [Ne.symm hk]
      rw [hbeq] at h
      simp [List.any_cons, hk, ih h]

/-! ## Claims -/

/-- C2.  The claim describes the bulk-replace `update(actions)` of source
lines 72-79: empty list rejected with `InvalidArgument`, non-empty list
installed as a copy with the label unchanged.  That method is SHADOWED by
the second `def update` of the same class (lines 105-111), so the live
`update` treats any argument as a definition dict: on a list of actions —
empty or not — the very first subscript `d['label']` raises `TypeError`
and nothing is replaced.  The last two conjuncts show that the shadowed
bulk-replace body, in isolation, would behave exactly as the claim says:
the code contradicts its own (dead) documentation, a code bug. -/
theorem claim2_update_is_shadowed :
    Scenario.update scFix (.actionList [actKitchen])
      = (scFix, some (.typeError "list indices must be integers, not str"))
  ∧ Scenario.update scFix (.actionList [])
      = (scFix, some (.typeError "list indices must be integers, not str"))
  ∧ Scenario.update_bulk scFix [actKitchen]
      = ({ scFix with actions := [actKitchen] }, none)
  ∧ Scenario.update_bulk scFix []
      = (scFix, some (.valueError "parameter actions is mandatory")) :=
  ⟨rfl, rfl, rfl, rfl⟩

/-- C3 counterexample.  A scenario constructed over a heap holding the
caller's one-action list: the `actions` property returns the internal list
object itself, and mutating the object behind the returned reference DOES
change the scenario's recorded sequence — the accessor is not a defensive
copy, refuting the claim at this input. -/
theorem claim3_counterexample :
    ((ScenarioObj.init ⟨[[actKitchen]]⟩ "scenario 1" (some 0)).2.recorded
        (ScenarioObj.init ⟨[[actKitchen]]⟩ "scenario 1" (some 0)).1 = [actKitchen])
  ∧ ((ScenarioObj.init ⟨[[actKitchen]]⟩ "scenario 1" (some 0)).2.recorded
        ((ScenarioObj.init ⟨[[actKitchen]]⟩ "scenario 1" (some 0)).1.set
          (ScenarioObj.init ⟨[[actKitchen]]⟩ "scenario 1" (some 0)).2.actionsAccessor
          [actBedroom]) = [actBedroom])
  ∧ [actBedroom] ≠ [actKitchen] := by
  refine ⟨rfl, rfl, ?_⟩
  decide

/-- C3 amended.  Constructor copy holds: after `Scenario(label, lst)` is
built, mutating the caller's list object `lst` leaves the recorded sequence
at its construction-time contents (conjunct 1).  But the `actions` accessor
returns the internal list object itself, so mutating the sequence the
accessor exposes DOES change the recorded sequence (conjunct 2). -/
theorem claim3_constructor_copies_accessor_aliases
    (h : Heap) (lbl : String) (r : Nat) (v : List BasicAction)
    (hr : r < h.cells.length) :
    ((ScenarioObj.init h lbl (some r)).2.recorded
        ((ScenarioObj.init h lbl (some r)).1.set r v) = h.get r)
  ∧ ((ScenarioObj.init h lbl (some r)).2.recorded
        ((ScenarioObj.init h lbl (some r)).1.set
          (ScenarioObj.init h lbl (some r)).2.actionsAccessor v) = v) := by
  constructor
  · simp only [ScenarioObj.init, Heap.alloc, ScenarioObj.recorded,
      ScenarioObj.actionsAccessor, Heap.get, Heap.set]
    rw [List.getD_eq_getElem?_getD, List.getElem?_set_ne (Nat.ne_of_lt hr),
      List.getElem?_concat_length]
    rfl
  · simp only [ScenarioObj.init, Heap.alloc, ScenarioObj.recorded,
      ScenarioObj.actionsAccessor, Heap.get, Heap.set]
    rw [List.getD_eq_getElem?_getD, List.getElem?_set_self (by simp)]
    rfl

/-- C3 witness: the amended aliasing statement at a concrete heap — the
caller's list is at reference 0, construction copies it, later mutation of
reference 0 is invisible, mutation through the accessor's reference is not. -/
theorem claim3_witness :
    ((ScenarioObj.init ⟨[[actKitchen]]⟩ "scenario 1" (some 0)).2.recorded
        ((ScenarioObj.init ⟨[[actKitchen]]⟩ "scenario 1" (some 0)).1.set 0 [actBedroom])
      = Heap.get ⟨[[actKitchen]]⟩ 0)
  ∧ ((ScenarioObj.init ⟨[[actKitchen]]⟩ "scenario 1" (some 0)).2.recorded
        ((ScenarioObj.init ⟨[[actKitchen]]⟩ "scenario 1" (some 0)).1.set
          (ScenarioObj.init ⟨[[actKitchen]]⟩ "scenario 1" (some 0)).2.actionsAccessor
          [actBedroom]) = [actBedroom]) :=
  claim3_constructor_copies_accessor_aliases ⟨[[actKitchen]]⟩ "scenario 1" 0 [actBedroom]
    (by decide)

/-- A derived label of the shape `verb + ' ' + target + ' ' + rest` is never
the empty string (it contains the separator blanks). -/
theorem derivedLabelNeEmpty (v t rest : String) :
    v ++ " " ++ t ++ " " ++ rest ≠ "" := by
  intro h
  have h2 := congrArg String.length h
  rw [String.length_append, String.length_append, String.length_append] at h2
  have hsp : (" " : String).length = 1 := rfl
  have hz : ("" : String).length = 0 := rfl
  rw [hsp, hz] at h2
  omega

/-- C4 counterexample.  The claim says that for a verb other than `switch`
and `dim` the derived label embeds the raw `data` value verbatim, `None`
included.  On `Action("nop", "kitchen", None)` (no label supplied) the
Python 2 concatenation `verb + ' ' + target + ' ' + None` instead raises
`TypeError`: no action is constructed at all. -/
theorem claim4_counterexample :
    BasicAction.new "nop" "kitchen" .null none
      = .error (.typeError "cannot concatenate str and non-str objects") := by
  decide

/-- C4 amended.  Label derivation when no (truthy) label is supplied:
`switch` maps truthiness of `data` to `on`/`off`; `dim` coerces `data` with
`int()` — its failures (`TypeError`/`ValueError`) propagate — and appends a
percent sign; any other verb concatenates the raw `data` value, which
succeeds exactly when `data` is a string (embedded verbatim) and raises
`TypeError` for any non-string `data`, `None` included.  The three concrete
labels of the claim hold. -/
theorem claim4_label_derivation :
    (∀ (t : String) (data : JVal), t ≠ "" →
      BasicAction.new "switch" t data none
        = .ok ⟨"switch", t, data,
            "switch" ++ " " ++ t ++ " " ++ (if data.truthy then "on" else "off")⟩)
  ∧ (∀ (t : String) (data : JVal) (n : Int), t ≠ "" → pyInt data = .ok n →
      BasicAction.new "dim" t data none
        = .ok ⟨"dim", t, data, "dim" ++ " " ++ t ++ " " ++ (toString n ++ "%")⟩)
  ∧ (∀ (t : String) (data : JVal) (e : PyErr), t ≠ "" → pyInt data = .error e →
      BasicAction.new "dim" t data none = .error e)
  ∧ (∀ (v t s : String), v ≠ "switch" → v ≠ "dim" → v ≠ "" → t ≠ "" →
      BasicAction.new v t (.str s) none = .ok ⟨v, t, .str s, v ++ " " ++ t ++ " " ++ s⟩)
  ∧ (∀ (v t : String) (data : JVal), v ≠ "switch" → v ≠ "dim" → v ≠ "" → t ≠ "" →
      (∀ s, data ≠ .str s) →
      BasicAction.new v t data none
        = .error (.typeError "cannot concatenate str and non-str objects"))
  ∧ BasicAction.new "switch" "kitchen" (.int 1) none
      = .ok ⟨"switch", "kitchen", .int 1, "switch kitchen on"⟩
  ∧ BasicAction.new "switch" "kitchen" (.int 0) none
      = .ok ⟨"switch", "kitchen", .int 0, "switch kitchen off"⟩
  ∧ BasicAction.new "dim" "bedroom" (.int 50) none
      = .ok ⟨"dim", "bedroom", .int 50, "dim bedroom 50%"⟩ := by
  refine ⟨?_, ?_, ?_, ?_, ?_, by decide, by decide, by decide⟩
  · intro t data ht
    simp [BasicAction.new, BasicAction.deriveLabel, BasicAction.interpretParam, ht]
  · intro t data n ht hn
    simp [BasicAction.new, BasicAction.deriveLabel, BasicAction.interpretParam, ht, hn]
  · intro t data e ht he
    simp [BasicAction.new, BasicAction.deriveLabel, BasicAction.interpretParam, ht, he]
  · intro v t s hv1 hv2 hv ht
    simp [BasicAction.new, BasicAction.deriveLabel, BasicAction.interpretParam,
      hv1, hv2, hv, ht]
  · intro v t data hv1 hv2 hv ht hd
    cases data with
    | str s => exact absurd rfl (hd s)
    | null =>
      simp [BasicAction.new, BasicAction.deriveLabel, BasicAction.interpretParam,
        hv1, hv2, hv, ht]
    | int n =>
      simp [BasicAction.new, BasicAction.deriveLabel, BasicAction.interpretParam,
        hv1, hv2, hv, ht]
    | bool b =>
      simp [BasicAction.new, BasicAction.deriveLabel, BasicAction.interpretParam,
        hv1, hv2, hv, ht]
    | arr xs =>
      simp [BasicAction.new, BasicAction.deriveLabel, BasicAction.interpretParam,
        hv1, hv2, hv, ht]
    | obj kvs =>
      simp [BasicAction.new, BasicAction.deriveLabel, BasicAction.interpretParam,
        hv1, hv2, hv, ht]

/-- C4 witness: the amended derivation rules applied at concrete inputs —
a `dim` with string data `"50"` coerces and derives `dim bedroom 50%`; a
`nop` with integer data fails the concatenation. -/
theorem claim4_witness :
    BasicAction.new "dim" "bedroom" (.str "50") none
      = .ok ⟨"dim", "bedroom", .str "50", "dim" ++ " " ++ "bedroom" ++ " " ++ (toString (50 : Int) ++ "%")⟩
  ∧ BasicAction.new "nop" "kitchen" (.int 3) none
      = .error (.typeError "cannot concatenate str and non-str objects") :=
  ⟨claim4_label_derivation.2.1 "bedroom" (.str "50") 50 (by decide) (by decide),
   claim4_label_derivation.2.2.2.2.1 "nop" "kitchen" (.int 3) (by decide) (by decide)
     (by decide) (by decide) (fun s h => JVal.noConfusion h)⟩

/-- C10.  Every successfully constructed action carries a non-empty label:
an empty supplied label triggers derivation just like an absent one
(conjunct 1); a derived label extends `verb + ' ' + target + ' '`, hence is
non-empty (conjunct 2); and any constructed action has a non-empty label
and deserializes from its own serialized form exactly, keeping the emitted
label instead of re-deriving (conjunct 3). -/
theorem claim10_label_invariant :
    (∀ (v t : String) (d : JVal),
      BasicAction.new v t d (some "") = BasicAction.new v t d none)
  ∧ (∀ (v t : String) (d : JVal) (lbl : String),
      BasicAction.deriveLabel v t d = .ok lbl →
      ∃ rest, lbl = v ++ " " ++ t ++ " " ++ rest)
  ∧ (∀ (v t : String) (d : JVal) (l : Option String) (a : BasicAction),
      BasicAction.new v t d l = .ok a →
      a.label ≠ "" ∧ BasicAction.from_dict a.asDict = .ok a) := by
  refine ⟨fun v t d => rfl, ?_, ?_⟩
  · intro v t d lbl h
    unfold BasicAction.deriveLabel at h
    cases hi : BasicAction.interpretParam v d with
    | error e => rw [hi] at h; exact absurd h (by simp)
    | ok p =>
      rw [hi] at h
      cases p with
      | str s =>
        refine ⟨s, ?_⟩
        have := h
        simp at this
        exact this.symm
      | null => exact absurd h (by simp)
      | int n => exact absurd h (by simp)
      | bool b => exact absurd h (by simp)
      | arr xs => exact absurd h (by simp)
      | obj kvs => exact absurd h (by simp)
  · intro v t d l a h
    unfold BasicAction.new at h
    by_cases hvt : v = "" ∨ t = ""
    · rw [if_pos hvt] at h
      exact absurd h (by simp)
    · rw [if_neg hvt] at h
      push_neg at hvt
      obtain ⟨hv, ht⟩ := hvt
      by_cases hl : l.getD "" = ""
      · rw [if_pos hl] at h
        cases hd : BasicAction.deriveLabel v t d with
        | error e => rw [hd] at h; exact absurd h (by simp)
        | ok lbl =>
          rw [hd] at h
          simp at h
          have hshape : ∃ rest, lbl = v ++ " " ++ t ++ " " ++ rest := by
            unfold BasicAction.deriveLabel at hd
            cases hi : BasicAction.interpretParam v d with
            | error e => rw [hi] at hd; exact absurd hd (by simp)
            | ok p =>
              rw [hi] at hd
              cases p with
              | str s =>
                refine ⟨s, ?_⟩
                have := hd
                simp at this
                exact this.symm
              | null => exact absurd hd (by simp)
              | int n => exact absurd hd (by simp)
              | bool b => exact absurd hd (by simp)
              | arr xs => exact absurd hd (by simp)
              | obj kvs => exact absurd hd (by simp)
          obtain ⟨rest, hrest⟩ := hshape
          have hlbl : a.label = lbl := by rw [← h]
          have hne : a.label ≠ "" := by
            rw [hlbl, hrest]; exact derivedLabelNeEmpty v t rest
          refine ⟨hne, ?_⟩
          have hv2 : a.verb = v := by rw [← h]
          have ht2 : a.target = t := by rw [← h]
          exact BasicAction.from_dict_asDict a (hv2 ▸ hv) (ht2 ▸ ht) hne
      · rw [if_neg hl] at h
        simp at h
        have hlbl : a.label = l.getD "" := by rw [← h]
        have hne : a.label ≠ "" := by rw [hlbl]; exact hl
        have hv2 : a.verb = v := by rw [← h]
        have ht2 : a.target = t := by rw [← h]
        exact ⟨hne, BasicAction.from_dict_asDict a (hv2 ▸ hv) (ht2 ▸ ht) hne⟩

/-- C10 witness: the invariant applied to the concrete construction
`BasicAction("switch", "kitchen", 1)` — the derived label is non-empty and
serialization round-trips without re-derivation. -/
theorem claim10_witness :
    (⟨"switch", "kitchen", .int 1, "switch kitchen on"⟩ : BasicAction).label ≠ ""
  ∧ BasicAction.from_dict
      (BasicAction.asDict ⟨"switch", "kitchen", .int 1, "switch kitchen on"⟩)
      = .ok ⟨"switch", "kitchen", .int 1, "switch kitchen on"⟩ :=
  claim10_label_invariant.2.2 "switch" "kitchen" (.int 1) none
    ⟨"switch", "kitchen", .int 1, "switch kitchen on"⟩ (by decide)

/-- C5.  Serialization round trip: for every well-formed scenario,
`Scenario.from_dict (s.as_dict)` reproduces `s` exactly — equal label and a
field-wise equal action sequence in the same order (structural equality of
the embedding). -/
theorem claim5_roundtrip (s : Scenario) (h : s.wf) :
    Scenario.from_dict s.as_dict = .ok s := by
  have h1 : Scenario.from_dict s.as_dict
      = (Scenario.fromDictList (s.actions.map BasicAction.asDict)).bind
          (fun actions => pure (Scenario.init s.label (some actions))) := rfl
  rw [h1, Scenario.fromDictList_map_asDict s.actions h]
  rfl

/-- C5 witness: the round trip at the concrete three-action scenario. -/
theorem claim5_witness : Scenario.from_dict scFix.as_dict = .ok scFix :=
  claim5_roundtrip scFix (by decide)

/-- C6.  `Scenario.execute`: a `None` event manager is rejected with
`ValueError` (and no sink call occurs); with a sink accepting every event,
each recorded action emits exactly one event, strictly in stored order; when
the sink raises on an action after accepting all earlier ones, exactly the
earlier events plus the failing one were emitted, the failure propagates,
and no later action is executed. -/
theorem claim6_execute_order :
    (∀ s : Scenario, s.execute none
      = ([], .error (.valueError "parameter event_manager is mandatory")))
  ∧ (∀ (s : Scenario) (emit : EmitFn),
      (∀ a ∈ s.actions, emit (BasicAction.callOf a) = none) →
      s.execute (some emit) = (s.actions.map BasicAction.callOf, .ok ()))
  ∧ (∀ (s : Scenario) (emit : EmitFn) (l1 : List BasicAction) (a : BasicAction)
      (l2 : List BasicAction) (e : PyErr),
      s.actions = l1 ++ a :: l2 →
      (∀ b ∈ l1, emit (BasicAction.callOf b) = none) →
      emit (BasicAction.callOf a) = some e →
      s.execute (some emit)
        = (l1.map BasicAction.callOf ++ [BasicAction.callOf a], .error e)) := by
  refine ⟨fun s => rfl, ?_, ?_⟩
  · intro s emit h
    simp [Scenario.execute, Scenario.execList_all_ok emit s.actions h]
  · intro s emit l1 a l2 e hact h1 ha
    simp [Scenario.execute, hact, Scenario.execList_stops emit l1 a l2 e h1 ha]

/-- C6 witness: the three-action scenario against a sink that raises on the
second action — the trace holds the first two events only, the failure
propagates, and the third action is never executed. -/
theorem claim6_witness :
    scFix.execute (some emitFailLiving)
      = ([actKitchen].map BasicAction.callOf ++ [BasicAction.callOf actLiving],
         .error (.typeError "sink failure")) :=
  claim6_execute_order.2.2 scFix emitFailLiving [actKitchen] actLiving [actBedroom]
    (.typeError "sink failure") rfl (by decide) (by decide)

/-- C7.  `BasicAction.execute` makes exactly one sink call, passing exactly
`(verb, target, str(data))`; when the sink accepts, the action returns
nothing; when the sink raises, the same exception propagates. -/
theorem claim7_action_execute (a : BasicAction) (emit : EmitFn) :
    (a.execute emit).1 = [(a.verb, a.target, pyStr a.data)]
  ∧ (emit (a.verb, a.target, pyStr a.data) = none → (a.execute emit).2 = .ok ())
  ∧ (∀ e, emit (a.verb, a.target, pyStr a.data) = some e →
      (a.execute emit).2 = .error e) := by
  refine ⟨rfl, ?_, ?_⟩
  · intro h
    simp [BasicAction.execute, BasicAction.callOf] at h ⊢
    rw [h]
  · intro e h
    simp [BasicAction.execute, BasicAction.callOf] at h ⊢
    rw [h]

/-- C7 witness: `BasicAction("switch", "kitchen", 1)` against an accepting
sink — one call, carrying the string form `"1"` of the data. -/
theorem claim7_witness :
    ((⟨"switch", "kitchen", .int 1, "switch kitchen on"⟩ : BasicAction).execute
        (fun _ => none)).1 = [("switch", "kitchen", pyStr (.int 1))]
  ∧ ((⟨"switch", "kitchen", .int 1, "switch kitchen on"⟩ : BasicAction).execute
        (fun _ => none)).2 = .ok () :=
  ⟨(claim7_action_execute ⟨"switch", "kitchen", .int 1, "switch kitchen on"⟩
      (fun _ => none)).1,
   (claim7_action_execute ⟨"switch", "kitchen", .int 1, "switch kitchen on"⟩
      (fun _ => none)).2.1 rfl⟩

/-- C8.  Directory failures: `get_scenario` on an absent id raises
`KeyError`; `remove_scenario` on an empty id raises `ValueError` and on an
absent (non-empty) id raises `KeyError`; in both `remove_scenario` failure
cases the returned store is the untouched input store, and `get_scenario`
never mutates by construction. -/
theorem claim8_absent_id_failures :
    (∀ (mgr : ScenariosManager) (id_ : String), mgr.scenarios.lookup id_ = none →
      mgr.get_scenario id_ = .error (.keyError id_))
  ∧ (∀ mgr : ScenariosManager,
      mgr.remove_scenario "" = (mgr, some (.valueError "parameter id_ is mandatory")))
  ∧ (∀ (mgr : ScenariosManager) (id_ : String), id_ ≠ "" →
      mgr.scenarios.lookup id_ = none →
      mgr.remove_scenario id_ = (mgr, some (.keyError id_))) := by
  refine ⟨?_, fun mgr => rfl, ?_⟩
  · intro mgr id_ h
    simp [ScenariosManager.get_scenario, h]
  · intro mgr id_ hid h
    simp [ScenariosManager.remove_scenario, hid, any_false_of_lookup_none h]

/-- C8 witness: the failures at a concrete one-scenario store and the
absent id `s99`. -/
theorem claim8_witness :
    mgrFix.get_scenario "s99" = .error (.keyError "s99")
  ∧ mgrFix.remove_scenario "" = (mgrFix, some (.valueError "parameter id_ is mandatory"))
  ∧ mgrFix.remove_scenario "s99" = (mgrFix, some (.keyError "s99")) :=
  ⟨claim8_absent_id_failures.1 mgrFix "s99" (by decide),
   claim8_absent_id_failures.2.1 mgrFix,
   claim8_absent_id_failures.2.2 mgrFix "s99" (by decide) (by decide)⟩

/-- C9.  The `scenarios` enumeration is a permutation of the store's
entries, sorted ascending by id; a snapshot taken before a removal still
lists the removed id while a fresh enumeration does not (the enumeration is
not a live view); and the store holding exactly `s02`, `s00`, `s01`
enumerates `s00, s01, s02`. -/
theorem claim9_enumeration_sorted :
    (∀ mgr : ScenariosManager, mgr.scenariosSorted.Perm mgr.scenarios)
  ∧ (∀ mgr : ScenariosManager, List.Sorted pairLe mgr.scenariosSorted)
  ∧ (∀ (mgr : ScenariosManager) (id_ : String), id_ ≠ "" → mgr.contains id_ = true →
      id_ ∈ mgr.scenariosSorted.map Prod.fst
      ∧ id_ ∉ (mgr.remove_scenario id_).1.scenariosSorted.map Prod.fst)
  ∧ mgrOrder.scenariosSorted.map Prod.fst = ["s00", "s01", "s02"] := by
  refine ⟨?_, ?_, ?_, by decide⟩
  · intro mgr
    exact List.perm_insertionSort pairLe mgr.scenarios
  · intro mgr
    exact List.sorted_insertionSort pairLe mgr.scenarios
  · intro mgr id_ hid hc
    have hany : mgr.scenarios.any (fun p => p.1 = id_) = true := hc
    constructor
    · exact ((List.perm_insertionSort pairLe mgr.scenarios).map Prod.fst).mem_iff.mpr
        (key_mem_of_any hany)
    · have hrem : (mgr.remove_scenario id_).1
          = ⟨mgr.scenarios.filter (fun p => p.1 ≠ id_)⟩ := by
        simp [ScenariosManager.remove_scenario, hid, hany]
      rw [hrem]
      intro hmem
      have := ((List.perm_insertionSort pairLe
          (mgr.scenarios.filter (fun p => p.1 ≠ id_))).map Prod.fst).mem_iff.mp hmem
      exact key_not_mem_filter mgr.scenarios id_ this

/-- C9 witness: the enumeration facts at the concrete store holding
`s02`, `s00`, `s01`, removing `s01`. -/
theorem claim9_witness :
    "s01" ∈ mgrOrder.scenariosSorted.map Prod.fst
  ∧ "s01" ∉ (mgrOrder.remove_scenario "s01").1.scenariosSorted.map Prod.fst :=
  claim9_enumeration_sorted.2.2.1 mgrOrder "s01" (by decide) (by decide)

/-- C1 counterexample.  A store holding one scenario, loading a path whose
file exists but holds a malformed document: the call does raise the
`ParseError`, but the in-memory map is NOT intact — `load_scenarios` assigns
`self._scenarios = \x7b\x7d` before `json.load` runs, so the store comes out
empty (a total clear), refuting the claim at this input. -/
theorem claim1_counterexample :
    (ScenariosManager.load_scenarios fsMalformed mgrFix (some "scenarios.cfg")).2
      = some (.jsonError "bad document")
  ∧ (ScenariosManager.load_scenarios fsMalformed mgrFix (some "scenarios.cfg")).1.scenarios
      = []
  ∧ mgrFix.scenarios ≠ [] := by
  refine ⟨rfl, rfl, ?_⟩
  decide

/-- C1 amended.  `load_scenarios` failure semantics: a path that is missing
or not a regular file raises `ValueError` with the in-memory map intact;
a path whose file exists but whose content is malformed raises the parse
error AFTER the map has been cleared, so the store comes out empty rather
than unchanged. -/
theorem claim1_load_failure_semantics :
    (∀ (fs : FileSys) (mgr : ScenariosManager) (path : Option String),
      fs (ScenariosManager.resolvePath path) = none →
      ScenariosManager.load_scenarios fs mgr path
        = (mgr, some (.valueError ("path " ++ ScenariosManager.resolvePath path
            ++ " not found or is not a file"))))
  ∧ (∀ (fs : FileSys) (mgr : ScenariosManager) (path : Option String) (msg : String),
      fs (ScenariosManager.resolvePath path) = some (.malformed msg) →
      ScenariosManager.load_scenarios fs mgr path = (⟨[]⟩, some (.jsonError msg))) := by
  constructor
  · intro fs mgr path h
    simp [ScenariosManager.load_scenarios, h]
  · intro fs mgr path msg h
    simp [ScenariosManager.load_scenarios, h]

/-- C1 witness: the amended semantics at concrete filesystems — a missing
path leaves the one-scenario store intact, a malformed file empties it. -/
theorem claim1_witness :
    ScenariosManager.load_scenarios fsMissing mgrFix (some "scenarios.cfg")
      = (mgrFix, some (.valueError "path scenarios.cfg not found or is not a file"))
  ∧ ScenariosManager.load_scenarios fsMalformed mgrFix (some "scenarios.cfg")
      = (⟨[]⟩, some (.jsonError "bad document")) :=
  ⟨(claim1_load_failure_semantics.1 fsMissing mgrFix (some "scenarios.cfg") rfl).trans
     (by decide),
   claim1_load_failure_semantics.2 fsMalformed mgrFix (some "scenarios.cfg")
     "bad document" rfl⟩
